import Mathlib

/-!
# Verification of the `engine-rs` renderer / engine frame loop

Shallow embedding of the repository's renderer core
(`src/renderer/src/vulkan.rs`, `src/renderer/src/lib.rs`) and of the engine
frame loop (`src/engine/src/lib.rs`).

Modelling conventions:
* Rust `f32` literals are carried as exact `Rat` tokens; no floating-point
  arithmetic is ever performed on them in the modelled code paths.
* External Vulkan driver responses (image acquisition, queue flush,
  swapchain recreation, surface capabilities, window dimensions) are inputs
  supplied through explicit environment structures; the repository's own
  control flow around those responses is modelled exactly.
* Rust panics (out-of-bounds `Vec` indexing, `Option::unwrap` on `None`) are
  made observable through the `RustResult.panicked` constructor.
* `anyhow::Result` is `Except String`; `bail!`/`anyhow!` become
  `Except.error` with the source's message text.
-/

set_option autoImplicit false

namespace EngineRs

/-- Outcome of a Rust computation: normal return, `Err` propagation via `?`
or `bail!`, or a panic (out-of-bounds indexing, `unwrap` on `None`). -/
inductive RustResult (α : Type) where
  | ok (val : α)
  | err (msg : String)
  | panicked (msg : String)
  deriving Repr, DecidableEq

/-- A swapchain image (`vulkano::image::SwapchainImage`): identity plus its
pixel dimensions. -/
structure SwapchainImage where
  id : Nat
  width : Nat
  height : Nat
  deriving Repr, DecidableEq

/-- A swapchain handle (`vulkano::swapchain::Swapchain`): identity (so that
recreation is observable) and the color format it was created with. -/
structure Swapchain where
  id : Nat
  format : Nat
  deriving Repr, DecidableEq

/-- A concrete Vulkan render pass, as built by
`VulkanRendererState::create_simple_render_pass`: a single color attachment
whose format is the swapchain's format. -/
structure VkRenderPass where
  format : Nat
  deriving Repr, DecidableEq

/-- A concrete Vulkan framebuffer, as built in
`VulkanRendererState::create_frame_buffers`:
`Framebuffer::start(rp).add(image).build()` binds one render pass to one
swapchain image. -/
structure VkFramebuffer where
  render_pass : VkRenderPass
  image : SwapchainImage
  deriving Repr, DecidableEq

/-- A concrete Vulkan graphics pipeline (opaque identity; built against a
render pass by `create_simple_render_pipeline`). -/
structure VkPipeline where
  render_pass : VkRenderPass
  deriving Repr, DecidableEq

/-- A vertex: `position: [f32; 3]` (`src/renderer/src/lib.rs`). -/
structure Vertex where
  x : Rat
  y : Rat
  z : Rat
  deriving Repr, DecidableEq

/-- A clear color: the `[f32; 4]` passed to `draw_data`. -/
structure ClearColor where
  r : Rat
  g : Rat
  b : Rat
  a : Rat
  deriving Repr, DecidableEq

/-- `enum RenderPass` from `src/renderer/src/lib.rs`. -/
inductive RenderPass where
  | Vulkan (rp : VkRenderPass)
  | None
  deriving Repr, DecidableEq

/-- `enum FrameBuffer` from `src/renderer/src/lib.rs`. -/
inductive FrameBuffer where
  | Vulkan (fb : VkFramebuffer)
  | None
  deriving Repr, DecidableEq

/-- `enum RenderPipeline` from `src/renderer/src/lib.rs`. -/
inductive RenderPipeline where
  | Vulkan (p : VkPipeline)
  | None
  deriving Repr, DecidableEq

/-- `enum VertexBuffer` from `src/renderer/src/lib.rs`; the Vulkan variant
carries the contents of the `CpuAccessibleBuffer<[Vertex]>`. -/
inductive VertexBuffer where
  | Vulkan (contents : List Vertex)
  | None
  deriving Repr, DecidableEq

/-- A command recorded into an `AutoCommandBufferBuilder` on the
`draw_data` path: `begin_render_pass`, `draw`, `end_render_pass`. -/
inductive Command where
  | beginRenderPass (frame_buffer : VkFramebuffer) (secondary : Bool)
      (clear_values : List ClearColor)
  | draw (pipeline : VkPipeline) (dynamic_viewport : Option (Nat × Nat))
      (vertex_buffers : List (List Vertex))
  | endRenderPass
  deriving Repr, DecidableEq

/-- The `Box<dyn GpuFuture>` stored in `frame_future`: either the
trivially-satisfied `vulkano::sync::now(device)` or the fence/flush future
chain built at the end of `draw_data`
(`prev.join(acquire).then_execute(cb).then_swapchain_present(idx)
.then_signal_fence_and_flush()`). -/
inductive FrameFuture where
  | now
  | fence (prev : FrameFuture) (acquired_image : Nat)
      (commands : List Command) (presented_image : Nat)
  deriving Repr, DecidableEq

/-- The mutable renderer state (`struct VulkanRendererState`); the opaque
instance/device/queue/surface handles carry no claim-relevant state and are
omitted. `dynamic_state` models `DynamicState` as the optional viewport
dimensions set by `init_viewport` (`DynamicState::none()` is `none`). -/
structure VulkanRendererState where
  swapchain : Swapchain
  swapchain_images : List SwapchainImage
  current_swapchain_image : Nat
  dynamic_state : Option (Nat × Nat)
  frame_future : Option FrameFuture
  deriving Repr, DecidableEq

/-- Result of `vulkano::swapchain::acquire_next_image`, an external driver
response: success with an image index (the `SwapchainAcquireFuture` is
identified with that index), `AcquireError::OutOfDate`, or another
`AcquireError`. -/
inductive AcquireResult where
  | ok (idx : Nat)
  | outOfDate
  | err (msg : String)
  deriving Repr, DecidableEq

/-- Result of `then_signal_fence_and_flush`, an external driver response:
success, `FlushError::OutOfDate`, or another `FlushError`. -/
inductive FlushResult where
  | ok
  | outOfDate
  | err (msg : String)
  deriving Repr, DecidableEq

/-- External driver responses consumed by one `draw_data` call: the acquire
result, the `then_execute` result, and the flush result. -/
structure DrawEnv where
  acquire : AcquireResult
  exec : Except String Unit
  flush : FlushResult
  deriving Repr

/-- `vulkano::swapchain::SwapchainCreationError`, restricted to the cases
`recreate_swapchain` distinguishes. -/
inductive SwapchainCreationError where
  | UnsupportedDimensions
  | Other (msg : String)
  deriving Repr, DecidableEq

/-- External responses consumed by one `recreate_swapchain` call:
`crate::get_window_dimensions(self.surface.window())` (which fails with
"Window no longer exists" when the window is gone) and the result of
`self.swapchain.recreate_with_dimension(dims)`. -/
structure RecreateEnv where
  window_dims : Except String (Nat × Nat)
  result : Except SwapchainCreationError (Swapchain × List SwapchainImage)
  deriving Repr

namespace VulkanRendererState

/-- `VulkanRendererState::begin_frame`: if a frame future exists, call its
(observably effect-free) `cleanup_finished`; otherwise install the
trivially-satisfied `vulkano::sync::now(device)` future. -/
def begin_frame (s : VulkanRendererState) : VulkanRendererState :=
  match s.frame_future with
  | some _ => s
  | none => { s with frame_future := some FrameFuture.now }

/-- `VulkanRendererState::init_viewport`: reads
`self.swapchain_images[0].dimensions()` (panicking when the image list is
empty, as Rust indexing does) and stores a viewport of those dimensions in
`dynamic_state`. -/
def init_viewport (s : VulkanRendererState) : RustResult VulkanRendererState :=
  match s.swapchain_images with
  | [] => RustResult.panicked "index out of bounds: the len is 0 but the index is 0"
  | image :: _ =>
      RustResult.ok { s with dynamic_state := some (image.width, image.height) }

/-- `VulkanRendererState::recreate_swapchain`: query the window's current
dimensions (propagating a window-gone error), then match on
`recreate_with_dimension`: success installs the new swapchain and image
list and returns `Ok(true)`; `SwapchainCreationError::UnsupportedDimensions`
returns `Ok(false)`; any other error is `bail!`ed. -/
def recreate_swapchain (s : VulkanRendererState) (env : RecreateEnv) :
    Except String (VulkanRendererState × Bool) :=
  match env.window_dims with
  | Except.error e => Except.error e
  | Except.ok _ =>
      match env.result with
      | Except.ok (new_swapchain, new_images) =>
          Except.ok
            ({ s with swapchain := new_swapchain, swapchain_images := new_images },
              true)
      | Except.error SwapchainCreationError.UnsupportedDimensions =>
          Except.ok (s, false)
      | Except.error (SwapchainCreationError.Other e) => Except.error e

/-- `VulkanRendererState::create_simple_render_pass`: a single-attachment
render pass over the swapchain's format. -/
def create_simple_render_pass (s : VulkanRendererState) : Except String RenderPass :=
  Except.ok (RenderPass.Vulkan { format := s.swapchain.format })

/-- `VulkanRendererState::create_frame_buffers`: on a Vulkan render pass,
push one `Framebuffer::start(rp).add(image).build()` per entry of
`self.swapchain_images`, in order; any other render pass variant is
`bail!`ed. -/
def create_frame_buffers (s : VulkanRendererState) (render_pass : RenderPass) :
    Except String (List FrameBuffer) :=
  match render_pass with
  | RenderPass.Vulkan rp =>
      Except.ok (s.swapchain_images.map fun image =>
        FrameBuffer.Vulkan { render_pass := rp, image := image })
  | RenderPass.None => Except.error "Render pass type None not supported"

/-- `VulkanRendererState::acquire_swapchain`: on success record the acquired
index in `current_swapchain_image` and return the acquire future (identified
with the index); on `AcquireError::OutOfDate` return `Ok(None)`; on any
other acquire error, `bail!`. -/
def acquire_swapchain (s : VulkanRendererState) (acquire : AcquireResult) :
    Except String (VulkanRendererState × Option Nat) :=
  match acquire with
  | AcquireResult.ok idx =>
      Except.ok ({ s with current_swapchain_image := idx }, some idx)
  | AcquireResult.outOfDate => Except.ok (s, none)
  | AcquireResult.err e => Except.error e

end VulkanRendererState

/-- The command-recording chain inside `draw_data` (lines 442-471 of
`src/renderer/src/vulkan.rs`):
`begin_render_pass(fb, false, clear_values)` (bailing on a non-Vulkan
framebuffer), `.draw(pipeline, &self.dynamic_state, vec![vertex_buffer],
(), ())` (bailing on a non-Vulkan pipeline and then on a non-Vulkan vertex
buffer, in the source's evaluation order), `.end_render_pass()`. -/
def record_commands (frame_buffer : FrameBuffer) (render_pipeline : RenderPipeline)
    (clear_values : List ClearColor) (draw_data : VertexBuffer)
    (dynamic_state : Option (Nat × Nat)) : Except String (List Command) :=
  match frame_buffer with
  | FrameBuffer.None => Except.error "Invalid framebuffer type None"
  | FrameBuffer.Vulkan f =>
      match render_pipeline with
      | RenderPipeline.None => Except.error "Invalid render pipeline type None"
      | RenderPipeline.Vulkan p =>
          match draw_data with
          | VertexBuffer.None => Except.error "Invalid vertex buffer type None"
          | VertexBuffer.Vulkan v =>
              Except.ok
                [Command.beginRenderPass f false clear_values,
                 Command.draw p dynamic_state [v],
                 Command.endRenderPass]

/-- What one `draw_data` call produced: the updated renderer state, the
command buffer handed to `then_execute` (when execution was reached), the
message printed by the `Err(e)` flush arm (when taken), and the returned
`bool` (`Ok(!recreate_swapchain)`). -/
structure DrawOutcome where
  state : VulkanRendererState
  submitted : Option (List Command)
  logged : Option String
  ret : Bool
  deriving Repr, DecidableEq

/-- `VulkanRendererState::draw_data`: acquire an image (returning `Ok(false)`
when the swapchain is out of date), index the caller's framebuffer list with
the acquired index (a Rust `Vec` index, which panics out of bounds), record
the command buffer, take and unwrap the frame future (panicking when absent),
join/execute/present/flush, and match on the flush result: success chains
the new fence future and returns `Ok(true)`; `FlushError::OutOfDate` resets
the future to `now` and returns `Ok(false)`; any other flush error is
printed, the future is reset to `now`, and `Ok(true)` is returned. -/
def VulkanRendererState.draw_data (s : VulkanRendererState) (env : DrawEnv)
    (render_pipeline : RenderPipeline) (clear_values : ClearColor)
    (vertex_buffer : VertexBuffer) (frame_buffers : List FrameBuffer) :
    RustResult DrawOutcome :=
  match s.acquire_swapchain env.acquire with
  | Except.error e => RustResult.err e
  | Except.ok (s1, none) =>
      RustResult.ok { state := s1, submitted := none, logged := none, ret := false }
  | Except.ok (s1, some _) =>
      if h : s1.current_swapchain_image < frame_buffers.length then
        let frame_buffer := frame_buffers.get ⟨s1.current_swapchain_image, h⟩
        match record_commands frame_buffer render_pipeline [clear_values]
            vertex_buffer s1.dynamic_state with
        | Except.error e => RustResult.err e
        | Except.ok command_buffer =>
            match s1.frame_future with
            | none => RustResult.panicked "called Option.unwrap on a None value"
            | some prev =>
                match env.exec with
                | Except.error e => RustResult.err e
                | Except.ok _ =>
                    let fence := FrameFuture.fence prev s1.current_swapchain_image
                      command_buffer s1.current_swapchain_image
                    match env.flush with
                    | FlushResult.ok =>
                        RustResult.ok
                          { state := { s1 with frame_future := some fence },
                            submitted := some command_buffer,
                            logged := none, ret := true }
                    | FlushResult.outOfDate =>
                        RustResult.ok
                          { state := { s1 with frame_future := some FrameFuture.now },
                            submitted := some command_buffer,
                            logged := none, ret := false }
                    | FlushResult.err e =>
                        RustResult.ok
                          { state := { s1 with frame_future := some FrameFuture.now },
                            submitted := some command_buffer,
                            logged := some e, ret := true }
      else
        RustResult.panicked "index out of bounds"

/-! ## Device selection and swapchain-creation parameters
(`VulkanRendererState::new`, `src/renderer/src/vulkan.rs`). -/

/-- A Vulkan queue family as inspected by `VulkanRendererState::new`:
whether it supports graphics, and the result of
`surface.is_supported(q)` (a fallible driver query). -/
structure QueueFamily where
  id : Nat
  supports_graphics : Bool
  is_supported : Except String Bool

/-- A physical device: its list of queue families. -/
structure PhysicalDevice where
  id : Nat
  queue_families : List QueueFamily

/-- The predicate of `VulkanRendererState::new`'s queue-family search:
`q.supports_graphics() && surface.is_supported(q).unwrap_or(false)`. -/
def queue_family_ok (q : QueueFamily) : Bool :=
  q.supports_graphics &&
    (match q.is_supported with
     | Except.ok b => b
     | Except.error _ => false)

/-- Device selection in `VulkanRendererState::new`:
`PhysicalDevice::enumerate(&instance).next()` takes the first enumerated
device (erroring with "No devices available!" on an empty enumeration), and
then `physical_device.queue_families().find(...)` searches that device's
queue families (erroring with "No graphics queues available!" when it has
none that is suitable). -/
def select_physical_device_and_queue (devices : List PhysicalDevice) :
    Except String (PhysicalDevice × QueueFamily) :=
  match devices with
  | [] => Except.error "No devices available!"
  | physical_device :: _ =>
      match physical_device.queue_families.find? queue_family_ok with
      | some graphics_queue_family =>
          Except.ok (physical_device, graphics_queue_family)
      | none => Except.error "No graphics queues available!"

/-- `vulkano::swapchain::PresentMode`, restricted to the two modes
`VulkanRendererState::new` considers. -/
inductive PresentMode where
  | Mailbox
  | Fifo
  deriving Repr, DecidableEq

/-- The surface capabilities consumed by `VulkanRendererState::new`:
supported composite-alpha modes, supported `(format, color_space)` pairs,
whether `present_modes.supports(PresentMode::Mailbox)`, and
`min_image_count`. -/
structure SurfaceCapabilities where
  supported_composite_alpha : List Nat
  supported_formats : List (Nat × Nat)
  supports_mailbox : Bool
  min_image_count : Nat
  deriving Repr, DecidableEq

/-- The parameters `VulkanRendererState::new` passes to `Swapchain::new`. -/
structure SwapchainRequest where
  num_images : Nat
  format : Nat
  present_mode : PresentMode
  alpha : Nat
  deriving Repr, DecidableEq

/-- The swapchain-parameter computation in `VulkanRendererState::new`
(lines 163-195 of `src/renderer/src/vulkan.rs`):
`alpha = capabilities.supported_composite_alpha.iter().next().unwrap()`
(a panic when empty), `format = capabilities.supported_formats[0].0`
(a panicking index when empty), Mailbox when supported else Fifo, and
`capabilities.min_image_count + 1` images. -/
def build_swapchain_request (capabilities : SurfaceCapabilities) :
    RustResult SwapchainRequest :=
  match capabilities.supported_composite_alpha with
  | [] => RustResult.panicked "called Option.unwrap on a None value"
  | alpha :: _ =>
      match capabilities.supported_formats with
      | [] => RustResult.panicked "index out of bounds: the len is 0 but the index is 0"
      | (format, _) :: _ =>
          let present_mode :=
            if capabilities.supports_mailbox then PresentMode.Mailbox
            else PresentMode.Fifo
          RustResult.ok
            { num_images := capabilities.min_image_count + 1,
              format := format,
              present_mode := present_mode,
              alpha := alpha }

/-! ## The backend-dispatch enum `Renderer` (`src/renderer/src/lib.rs`). -/

/-- `enum Renderer`: the Vulkan backend state or `None`. -/
inductive Renderer where
  | Vulkan (s : VulkanRendererState)
  | None

namespace Renderer

/-- `Renderer::get_window`: the Vulkan backend returns its surface's window
(opaque here); the `None` backend bails with "No window". -/
def get_window : Renderer → Except String Unit
  | Renderer.Vulkan _ => Except.ok ()
  | Renderer.None => Except.error "No window"

/-- `Renderer::begin_frame` dispatch. -/
def begin_frame : Renderer → Renderer
  | Renderer.Vulkan r => Renderer.Vulkan r.begin_frame
  | Renderer.None => Renderer.None

/-- `Renderer::recreate_swapchain` dispatch: the `None` backend returns
`Ok(true)`. -/
def recreate_swapchain (r : Renderer) (env : RecreateEnv) :
    Except String (Renderer × Bool) :=
  match r with
  | Renderer.Vulkan v =>
      match v.recreate_swapchain env with
      | Except.ok (v1, b) => Except.ok (Renderer.Vulkan v1, b)
      | Except.error e => Except.error e
  | Renderer.None => Except.ok (Renderer.None, true)

/-- `Renderer::create_frame_buffers`: calls `self.init_viewport()` first
(which on the Vulkan backend indexes `swapchain_images[0]`, a potential
panic), then dispatches; the `None` backend returns an empty list. -/
def create_frame_buffers (r : Renderer) (render_pass : RenderPass) :
    RustResult (Renderer × List FrameBuffer) :=
  match r with
  | Renderer.Vulkan v =>
      match v.init_viewport with
      | RustResult.panicked m => RustResult.panicked m
      | RustResult.err m => RustResult.err m
      | RustResult.ok v1 =>
          match v1.create_frame_buffers render_pass with
          | Except.ok fbs => RustResult.ok (Renderer.Vulkan v1, fbs)
          | Except.error e => RustResult.err e
  | Renderer.None => RustResult.ok (Renderer.None, [])

/-- `Renderer::draw_data` dispatch: the `None` backend returns `Ok(false)`
without drawing. -/
def draw_data (r : Renderer) (env : DrawEnv) (render_pipeline : RenderPipeline)
    (clear_values : ClearColor) (vertex_buffer : VertexBuffer)
    (frame_buffers : List FrameBuffer) :
    RustResult (Renderer × Option (List Command) × Bool) :=
  match r with
  | Renderer.Vulkan v =>
      match v.draw_data env render_pipeline clear_values vertex_buffer frame_buffers with
      | RustResult.ok out =>
          RustResult.ok (Renderer.Vulkan out.state, out.submitted, out.ret)
      | RustResult.err m => RustResult.err m
      | RustResult.panicked m => RustResult.panicked m
  | Renderer.None => RustResult.ok (Renderer.None, none, false)

end Renderer

/-! ## The engine frame loop (`src/engine/src/lib.rs`). -/

/-- The scene state the frame loop reads (`self.scene.vertex_buffer`, the
field `Engine::load_scene` fills and `Engine::render_scene` draws). -/
structure Scene where
  vertex_buffer : VertexBuffer

/-- The fields of `struct Engine` driving the frame loop (stats and the
commented-out debug UI carry no claim-relevant state and are omitted). -/
structure Engine where
  quit : Bool
  renderer : Renderer
  render_pass : RenderPass
  frame_buffers : List FrameBuffer
  render_pipeline : RenderPipeline
  recreate_swapchain : Bool
  scene : Scene

/-- The window events delivered by one `events_loop.poll_events` batch:
whether a `CloseRequested` event and whether a `Resized` event arrived. -/
structure TickEvents where
  close_requested : Bool
  resized : Bool
  deriving Repr, DecidableEq

/-- The external responses consumed by one iteration of `Engine::run`. -/
structure TickEnv where
  events : TickEvents
  recreate : RecreateEnv
  draw : DrawEnv

/-- `Engine::handle_events`: looks up the window (propagating the error for
the `None` backend), polls events, and then unconditionally overwrites
`self.quit` with whether a close was requested and
`self.recreate_swapchain` with whether a resize arrived this tick. -/
def Engine.handle_events (e : Engine) (events : TickEvents) : Except String Engine :=
  match e.renderer.get_window with
  | Except.error msg => Except.error msg
  | Except.ok _ =>
      Except.ok { e with quit := events.close_requested,
                         recreate_swapchain := events.resized }

/-- `Engine::render_scene`: calls `draw_data` with the fixed clear color
`[0.0, 0.0, 1.0, 1.0]`, the scene's vertex buffer and the engine's
framebuffer list; when it returns `Ok(false)` the engine sets
`self.recreate_swapchain = true`. Also returns the submitted command
buffer for observability. -/
def Engine.render_scene (e : Engine) (env : DrawEnv) :
    RustResult (Engine × Option (List Command)) :=
  match e.renderer.draw_data env e.render_pipeline
      { r := 0, g := 0, b := 1, a := 1 } e.scene.vertex_buffer e.frame_buffers with
  | RustResult.err m => RustResult.err m
  | RustResult.panicked m => RustResult.panicked m
  | RustResult.ok (r, submitted, ret) =>
      let e1 := { e with renderer := r }
      if ret then RustResult.ok (e1, submitted)
      else RustResult.ok ({ e1 with recreate_swapchain := true }, submitted)

/-- How one iteration of the `loop` in `Engine::run` ended: `continued`
(the `continue` taken when recreation reports unsupported dimensions),
`looped` (full body ran, loop continues), `quitted` (full body ran and
`self.quit` broke the loop), `failed` (an `Err` propagated out of `run`),
or `panicked`. -/
inductive TickOutcome where
  | continued (e : Engine)
  | looped (e : Engine) (submitted : Option (List Command))
  | quitted (e : Engine) (submitted : Option (List Command))
  | failed (msg : String)
  | panicked (msg : String)

/-- The tail of the loop body after the swapchain-recreation block:
`render_scene` followed by the `quit` check. -/
def Engine.render_tail (e : Engine) (env : TickEnv) : TickOutcome :=
  match e.render_scene env.draw with
  | RustResult.err m => TickOutcome.failed m
  | RustResult.panicked m => TickOutcome.panicked m
  | RustResult.ok (e1, submitted) =>
      if e1.quit then TickOutcome.quitted e1 submitted
      else TickOutcome.looped e1 submitted

/-- One iteration of the `loop` in `Engine::run` (lines 245-285 of
`src/engine/src/lib.rs`): `begin_frame`; `handle_events` (which overwrites
the `quit` and `recreate_swapchain` flags); if `recreate_swapchain` is set,
recreate (a soft `false` hits `continue`, success rebuilds the framebuffer
list and clears the flag); then `render_scene` and the `quit` check. -/
def Engine.tick (e : Engine) (env : TickEnv) : TickOutcome :=
  let e0 := { e with renderer := e.renderer.begin_frame }
  match e0.handle_events env.events with
  | Except.error msg => TickOutcome.failed msg
  | Except.ok e1 =>
      if e1.recreate_swapchain then
        match e1.renderer.recreate_swapchain env.recreate with
        | Except.error msg => TickOutcome.failed msg
        | Except.ok (r, false) =>
            TickOutcome.continued { e1 with renderer := r }
        | Except.ok (r, true) =>
            let e2 := { e1 with renderer := r }
            match e2.renderer.create_frame_buffers e2.render_pass with
            | RustResult.err msg => TickOutcome.failed msg
            | RustResult.panicked m => TickOutcome.panicked m
            | RustResult.ok (r2, fbs) =>
                Engine.render_tail
                  { e2 with renderer := r2, frame_buffers := fbs,
                            recreate_swapchain := false } env
      else
        Engine.render_tail e1 env

/-! ## Concrete sample values for witnesses and counterexamples. -/

/-- A sample swapchain image. -/
def sampleImage0 : SwapchainImage := { id := 0, width := 640, height := 480 }

/-- A second sample swapchain image. -/
def sampleImage1 : SwapchainImage := { id := 1, width := 640, height := 480 }

/-- A sample swapchain. -/
def sampleSwapchain : Swapchain := { id := 0, format := 37 }

/-- A sample render pass over the sample swapchain's format. -/
def sampleRenderPass : VkRenderPass := { format := 37 }

/-- A sample framebuffer binding the sample render pass to the sample image. -/
def sampleVkFramebuffer : VkFramebuffer :=
  { render_pass := sampleRenderPass, image := sampleImage0 }

/-- A sample pipeline. -/
def samplePipeline : VkPipeline := { render_pass := sampleRenderPass }

/-- A sample renderer state with two swapchain images and a live future. -/
def sampleState : VulkanRendererState :=
  { swapchain := sampleSwapchain,
    swapchain_images := [sampleImage0, sampleImage1],
    current_swapchain_image := 0,
    dynamic_state := some (640, 480),
    frame_future := some FrameFuture.now }

/-- The clear color `[0.0, 0.0, 1.0, 1.0]` used by `Engine::render_scene`. -/
def blueClear : ClearColor := { r := 0, g := 0, b := 1, a := 1 }

/-- The triangle vertex data that `Engine::load_scene` puts in the scene's
vertex buffer. -/
def sampleVertices : List Vertex :=
  [{ x := -(1/2), y := -(1/4), z := 0 },
   { x := 0, y := 1/2, z := 0 },
   { x := 1/4, y := -(1/10), z := 0 }]

/-- The framebuffer list built from `sampleState` over `sampleRenderPass`. -/
def sampleFrameBuffers : List FrameBuffer :=
  [FrameBuffer.Vulkan { render_pass := sampleRenderPass, image := sampleImage0 },
   FrameBuffer.Vulkan { render_pass := sampleRenderPass, image := sampleImage1 }]

/-! ## Claims -/

/-- C2: for every swapchain state, `create_frame_buffers` on a Vulkan render
pass returns a framebuffer list whose length equals the number of swapchain
images, binding exactly one framebuffer to each swapchain image in order. -/
theorem create_frame_buffers_one_per_image (s : VulkanRendererState)
    (rp : VkRenderPass) (fbs : List FrameBuffer)
    (h : s.create_frame_buffers (RenderPass.Vulkan rp) = Except.ok fbs) :
    fbs.length = s.swapchain_images.length ∧
    ∀ i : Nat, fbs[i]? = (s.swapchain_images[i]?).map
      (fun image => FrameBuffer.Vulkan { render_pass := rp, image := image }) := by
  have hfbs : s.swapchain_images.map
      (fun image => FrameBuffer.Vulkan { render_pass := rp, image := image }) = fbs := by
    simpa [VulkanRendererState.create_frame_buffers] using h
  constructor
  · rw [← hfbs]; simp
  · intro i; rw [← hfbs]; simp

/-- Witness for C2 at the concrete two-image sample state. -/
theorem create_frame_buffers_one_per_image_witness :
    sampleState.create_frame_buffers (RenderPass.Vulkan sampleRenderPass) =
      Except.ok sampleFrameBuffers ∧
    sampleFrameBuffers.length = sampleState.swapchain_images.length :=
  ⟨rfl, (create_frame_buffers_one_per_image sampleState sampleRenderPass
      sampleFrameBuffers rfl).1⟩

/-- C3: when the platform reports dimensions incompatible with the device,
`recreate_swapchain` returns the soft outcome `Ok(false)` (and the engine
loop then skips the frame via `continue`), while every other recreation
error is returned as a hard `Err`. -/
theorem recreate_swapchain_soft_on_unsupported_dimensions
    (s : VulkanRendererState) (env : RecreateEnv) (dims : Nat × Nat)
    (hdims : env.window_dims = Except.ok dims) :
    (env.result = Except.error SwapchainCreationError.UnsupportedDimensions →
        s.recreate_swapchain env = Except.ok (s, false)) ∧
    (∀ msg, env.result = Except.error (SwapchainCreationError.Other msg) →
        s.recreate_swapchain env = Except.error msg) ∧
    (env.result = Except.error SwapchainCreationError.UnsupportedDimensions →
      ∀ (q rs c : Bool) (rp : RenderPass) (fbs : List FrameBuffer)
        (rpl : RenderPipeline) (sc : Scene) (d : DrawEnv),
        Engine.tick
          { quit := q, renderer := Renderer.Vulkan s, render_pass := rp,
            frame_buffers := fbs, render_pipeline := rpl,
            recreate_swapchain := rs, scene := sc }
          { events := { close_requested := c, resized := true },
            recreate := env, draw := d } =
        TickOutcome.continued
          { quit := c, renderer := Renderer.Vulkan s.begin_frame, render_pass := rp,
            frame_buffers := fbs, render_pipeline := rpl,
            recreate_swapchain := true, scene := sc }) := by
  refine ⟨fun hres => ?_, fun msg hres => ?_, fun hres q rs c rp fbs rpl sc d => ?_⟩
  · simp [VulkanRendererState.recreate_swapchain, hdims, hres]
  · simp [VulkanRendererState.recreate_swapchain, hdims, hres]
  · simp [Engine.tick, Engine.handle_events, Renderer.get_window,
      Renderer.begin_frame, Renderer.recreate_swapchain,
      VulkanRendererState.recreate_swapchain, hdims, hres]

/-- Witness for C3: a zero-dimension recreation at the sample state is the
soft `Ok(false)`. -/
theorem recreate_swapchain_soft_witness :
    sampleState.recreate_swapchain
      { window_dims := Except.ok (0, 0),
        result := Except.error SwapchainCreationError.UnsupportedDimensions } =
      Except.ok (sampleState, false) :=
  (recreate_swapchain_soft_on_unsupported_dimensions sampleState
    { window_dims := Except.ok (0, 0),
      result := Except.error SwapchainCreationError.UnsupportedDimensions }
    (0, 0) rfl).1 rfl

/-- C4: when image acquisition reports the swapchain out of date,
`acquire_swapchain` returns `Ok(None)` and `draw_data` returns `Ok(false)`
without drawing; only other acquire errors produce `Err`. -/
theorem acquire_out_of_date_is_soft (s : VulkanRendererState)
    (p : RenderPipeline) (c : ClearColor) (vb : VertexBuffer)
    (fbs : List FrameBuffer) :
    (∀ env : DrawEnv, env.acquire = AcquireResult.outOfDate →
        s.acquire_swapchain env.acquire = Except.ok (s, none) ∧
        s.draw_data env p c vb fbs =
          RustResult.ok
            { state := s, submitted := none, logged := none, ret := false }) ∧
    (∀ (env : DrawEnv) (msg : String), env.acquire = AcquireResult.err msg →
        s.acquire_swapchain env.acquire = Except.error msg ∧
        s.draw_data env p c vb fbs = RustResult.err msg) := by
  refine ⟨fun env hacq => ?_, fun env msg hacq => ?_⟩ <;>
    simp [VulkanRendererState.draw_data, VulkanRendererState.acquire_swapchain, hacq]

/-- Witness for C4: an out-of-date acquire at the sample state yields
`Ok(false)`. -/
theorem acquire_out_of_date_is_soft_witness :
    sampleState.draw_data
      { acquire := AcquireResult.outOfDate, exec := Except.ok (),
        flush := FlushResult.ok }
      (RenderPipeline.Vulkan samplePipeline) blueClear
      (VertexBuffer.Vulkan sampleVertices) sampleFrameBuffers =
      RustResult.ok
        { state := sampleState, submitted := none, logged := none, ret := false } :=
  ((acquire_out_of_date_is_soft sampleState (RenderPipeline.Vulkan samplePipeline)
      blueClear (VertexBuffer.Vulkan sampleVertices) sampleFrameBuffers).1
    { acquire := AcquireResult.outOfDate, exec := Except.ok (),
      flush := FlushResult.ok } rfl).2

/-- C10: `draw_data` indexes the caller-supplied framebuffer list with the
just-acquired image index without a bounds check, so whenever the list's
length is at most the acquired index the call panics instead of returning
an error. -/
theorem draw_data_panics_on_short_framebuffer_list (s : VulkanRendererState)
    (env : DrawEnv) (p : RenderPipeline) (c : ClearColor) (vb : VertexBuffer)
    (fbs : List FrameBuffer) (idx : Nat)
    (hacq : env.acquire = AcquireResult.ok idx)
    (hlen : fbs.length ≤ idx) :
    s.draw_data env p c vb fbs = RustResult.panicked "index out of bounds" := by
  simp [VulkanRendererState.draw_data, VulkanRendererState.acquire_swapchain,
    hacq, Nat.not_lt.mpr hlen]

/-- Witness for C10: acquiring image 1 against a one-element framebuffer
list (one built against a previous, smaller swapchain) panics. -/
theorem draw_data_panics_witness :
    sampleState.draw_data
      { acquire := AcquireResult.ok 1, exec := Except.ok (),
        flush := FlushResult.ok }
      (RenderPipeline.Vulkan samplePipeline) blueClear
      (VertexBuffer.Vulkan sampleVertices)
      [FrameBuffer.Vulkan sampleVkFramebuffer] =
      RustResult.panicked "index out of bounds" :=
  draw_data_panics_on_short_framebuffer_list sampleState
    { acquire := AcquireResult.ok 1, exec := Except.ok (),
      flush := FlushResult.ok }
    (RenderPipeline.Vulkan samplePipeline) blueClear
    (VertexBuffer.Vulkan sampleVertices)
    [FrameBuffer.Vulkan sampleVkFramebuffer] 1 rfl (by decide)

/-- Abbreviation for the state update `draw_data` performs on the success
path: the acquired image index is stored and the frame future replaced. -/
def VulkanRendererState.after_frame (s : VulkanRendererState) (idx : Nat) (fut : FrameFuture) : VulkanRendererState :=
  { s with current_swapchain_image := idx, frame_future := some fut }

/-- Helper: on the full success path up to the flush (acquire succeeded with
an in-bounds index onto a Vulkan framebuffer, the frame future exists, and
execution succeeded), `draw_data` is determined by the flush result. -/
theorem draw_data_flush_cases (s : VulkanRendererState) (env : DrawEnv)
    (p : VkPipeline) (c : ClearColor) (v : List Vertex)
    (fbs : List FrameBuffer) (idx : Nat) (f : VkFramebuffer) (prev : FrameFuture)
    (hacq : env.acquire = AcquireResult.ok idx)
    (hfb : fbs[idx]? = some (FrameBuffer.Vulkan f))
    (hfut : s.frame_future = some prev)
    (hexec : env.exec = Except.ok ()) :
    s.draw_data env (RenderPipeline.Vulkan p) c (VertexBuffer.Vulkan v) fbs =
      let cb := [Command.beginRenderPass f false [c],
                 Command.draw p s.dynamic_state [v], Command.endRenderPass]
      match env.flush with
      | FlushResult.ok =>
          RustResult.ok
            { state := s.after_frame idx (FrameFuture.fence prev idx cb idx),
              submitted := some cb, logged := none, ret := true }
      | FlushResult.outOfDate =>
          RustResult.ok
            { state := s.after_frame idx FrameFuture.now,
              submitted := some cb, logged := none, ret := false }
      | FlushResult.err m =>
          RustResult.ok
            { state := s.after_frame idx FrameFuture.now,
              submitted := some cb, logged := some m, ret := true } := by
  have hlt : idx < fbs.length := by
    by_contra hge
    rw [List.getElem?_eq_none (Nat.le_of_not_lt hge)] at hfb
    exact Option.noConfusion hfb
  have hget : fbs.get ⟨idx, hlt⟩ = FrameBuffer.Vulkan f := by
    have := List.getElem?_eq_getElem hlt
    rw [this] at hfb
    exact Option.some.inj hfb
  cases hfl : env.flush <;>
    simp only [VulkanRendererState.draw_data, VulkanRendererState.acquire_swapchain,
      hacq, hfut, hexec, hlt, dif_pos, hget, record_commands,
      VulkanRendererState.after_frame, hfl]

/-- C5: when the flush after present reports the swapchain out of date,
`draw_data` resets the frame future to the trivially-satisfied `now` state
and returns `Ok(false)` rather than an error, and `Engine::render_scene`
then sets the engine's `recreate_swapchain` flag. -/
theorem present_out_of_date_is_soft (s : VulkanRendererState) (env : DrawEnv)
    (p : VkPipeline) (v : List Vertex) (fbs : List FrameBuffer)
    (idx : Nat) (f : VkFramebuffer) (prev : FrameFuture)
    (hacq : env.acquire = AcquireResult.ok idx)
    (hfb : fbs[idx]? = some (FrameBuffer.Vulkan f))
    (hfut : s.frame_future = some prev)
    (hexec : env.exec = Except.ok ())
    (hflush : env.flush = FlushResult.outOfDate) :
    (∀ c : ClearColor,
      s.draw_data env (RenderPipeline.Vulkan p) c (VertexBuffer.Vulkan v) fbs =
        RustResult.ok
          { state := s.after_frame idx FrameFuture.now,
            submitted := some [Command.beginRenderPass f false [c],
              Command.draw p s.dynamic_state [v], Command.endRenderPass],
            logged := none, ret := false }) ∧
    (∀ (q rs : Bool) (rp : RenderPass),
      Engine.render_scene
        { quit := q, renderer := Renderer.Vulkan s, render_pass := rp,
          frame_buffers := fbs, render_pipeline := RenderPipeline.Vulkan p,
          recreate_swapchain := rs,
          scene := { vertex_buffer := VertexBuffer.Vulkan v } } env =
      RustResult.ok
        ({ quit := q,
           renderer := Renderer.Vulkan (s.after_frame idx FrameFuture.now),
           render_pass := rp, frame_buffers := fbs,
           render_pipeline := RenderPipeline.Vulkan p,
           recreate_swapchain := true,
           scene := { vertex_buffer := VertexBuffer.Vulkan v } },
         some [Command.beginRenderPass f false [blueClear],
           Command.draw p s.dynamic_state [v], Command.endRenderPass])) := by
  have hcases := fun c =>
    draw_data_flush_cases s env p c v fbs idx f prev hacq hfb hfut hexec
  constructor
  · intro c
    have h := hcases c
    rw [hflush] at h
    simpa using h
  · intro q rs rp
    have h := hcases { r := 0, g := 0, b := 1, a := 1 }
    rw [hflush] at h
    simp only at h
    simp [Engine.render_scene, Renderer.draw_data, blueClear, h]

/-- Witness for C5 at the concrete sample state. -/
theorem present_out_of_date_is_soft_witness :
    sampleState.draw_data
      { acquire := AcquireResult.ok 1, exec := Except.ok (),
        flush := FlushResult.outOfDate }
      (RenderPipeline.Vulkan samplePipeline) blueClear
      (VertexBuffer.Vulkan sampleVertices) sampleFrameBuffers =
      RustResult.ok
        { state := sampleState.after_frame 1 FrameFuture.now,
          submitted := some [Command.beginRenderPass
              { render_pass := sampleRenderPass, image := sampleImage1 } false
              [blueClear],
            Command.draw samplePipeline sampleState.dynamic_state [sampleVertices],
            Command.endRenderPass],
          logged := none, ret := false } :=
  (present_out_of_date_is_soft sampleState
    { acquire := AcquireResult.ok 1, exec := Except.ok (),
      flush := FlushResult.outOfDate }
    samplePipeline sampleVertices sampleFrameBuffers 1
    { render_pass := sampleRenderPass, image := sampleImage1 }
    FrameFuture.now rfl rfl rfl rfl rfl).1 blueClear

/-- C9: any flush error other than out-of-date is logged, the frame future
is reset to the trivially-satisfied `now` state, and `draw_data` still
returns `Ok` (with `true`), so the error does not propagate past the
render-loop boundary. -/
theorem flush_error_contained (s : VulkanRendererState) (env : DrawEnv)
    (p : VkPipeline) (c : ClearColor) (v : List Vertex) (fbs : List FrameBuffer)
    (idx : Nat) (f : VkFramebuffer) (prev : FrameFuture) (msg : String)
    (hacq : env.acquire = AcquireResult.ok idx)
    (hfb : fbs[idx]? = some (FrameBuffer.Vulkan f))
    (hfut : s.frame_future = some prev)
    (hexec : env.exec = Except.ok ())
    (hflush : env.flush = FlushResult.err msg) :
    s.draw_data env (RenderPipeline.Vulkan p) c (VertexBuffer.Vulkan v) fbs =
      RustResult.ok
        { state := s.after_frame idx FrameFuture.now,
          submitted := some [Command.beginRenderPass f false [c],
            Command.draw p s.dynamic_state [v], Command.endRenderPass],
          logged := some msg, ret := true } := by
  have h := draw_data_flush_cases s env p c v fbs idx f prev hacq hfb hfut hexec
  rw [hflush] at h
  simpa using h

/-- Witness for C9 at the concrete sample state. -/
theorem flush_error_contained_witness :
    sampleState.draw_data
      { acquire := AcquireResult.ok 0, exec := Except.ok (),
        flush := FlushResult.err "DeviceLost" }
      (RenderPipeline.Vulkan samplePipeline) blueClear
      (VertexBuffer.Vulkan sampleVertices) sampleFrameBuffers =
      RustResult.ok
        { state := sampleState.after_frame 0 FrameFuture.now,
          submitted := some [Command.beginRenderPass sampleVkFramebuffer false
              [blueClear],
            Command.draw samplePipeline sampleState.dynamic_state [sampleVertices],
            Command.endRenderPass],
          logged := some "DeviceLost", ret := true } :=
  flush_error_contained sampleState
    { acquire := AcquireResult.ok 0, exec := Except.ok (),
      flush := FlushResult.err "DeviceLost" }
    samplePipeline blueClear sampleVertices sampleFrameBuffers 0
    sampleVkFramebuffer FrameFuture.now "DeviceLost" rfl rfl rfl rfl rfl

/-- C6 counterexample: the claim says the per-frame record step records only
a render-pass begin and a render-pass end with no draw call, but at a
concrete Vulkan framebuffer/pipeline/vertex-buffer input the recorded
command buffer does contain a `draw` command. -/
theorem record_commands_no_draw_counterexample :
    ¬ (∀ (fb : FrameBuffer) (rpl : RenderPipeline) (cv : List ClearColor)
        (vb : VertexBuffer) (ds : Option (Nat × Nat)) (cs : List Command),
        record_commands fb rpl cv vb ds = Except.ok cs →
        ∀ c ∈ cs, ∀ (pl : VkPipeline) (dv : Option (Nat × Nat))
          (vbs : List (List Vertex)), c ≠ Command.draw pl dv vbs) := by
  intro h
  exact h (FrameBuffer.Vulkan sampleVkFramebuffer)
    (RenderPipeline.Vulkan samplePipeline) [blueClear]
    (VertexBuffer.Vulkan sampleVertices) none
    [Command.beginRenderPass sampleVkFramebuffer false [blueClear],
     Command.draw samplePipeline none [sampleVertices],
     Command.endRenderPass] rfl
    (Command.draw samplePipeline none [sampleVertices]) (by simp)
    samplePipeline none [sampleVertices] rfl

/-- C6 (amended): the per-frame record step records a render-pass begin with
a single clear color, one `draw` call binding the pipeline, the dynamic
viewport state and the vertex buffer, and a render-pass end — geometry is
submitted, the draw call is present rather than unimplemented. -/
theorem record_commands_begin_draw_end (f : VkFramebuffer) (p : VkPipeline)
    (c : ClearColor) (v : List Vertex) (ds : Option (Nat × Nat)) :
    record_commands (FrameBuffer.Vulkan f) (RenderPipeline.Vulkan p) [c]
        (VertexBuffer.Vulkan v) ds =
      Except.ok [Command.beginRenderPass f false [c],
        Command.draw p ds [v], Command.endRenderPass] := rfl

/-- A queue family that supports graphics and can present to the surface. -/
def goodQueueFamily : QueueFamily :=
  { id := 0, supports_graphics := true, is_supported := Except.ok true }

/-- A queue family with presentation support but no graphics support. -/
def computeOnlyQueueFamily : QueueFamily :=
  { id := 0, supports_graphics := false, is_supported := Except.ok true }

/-- A physical device whose only queue family cannot do graphics. -/
def computeOnlyDevice : PhysicalDevice :=
  { id := 0, queue_families := [computeOnlyQueueFamily] }

/-- A physical device with a graphics+present queue family. -/
def graphicsDevice : PhysicalDevice :=
  { id := 1, queue_families := [goodQueueFamily] }

/-- C7 counterexample: the claim says device initialization selects the
first physical device exposing a graphics+present queue family (and only
errors when no such family exists), but given a first device without such a
family and a second device with one, `VulkanRendererState::new` errors
instead of selecting the second device. -/
theorem select_device_first_suitable_counterexample :
    ¬ (∀ devices : List PhysicalDevice,
        (∃ d ∈ devices, ∃ q ∈ d.queue_families, queue_family_ok q = true) →
        ∃ dq, select_physical_device_and_queue devices = Except.ok dq) := by
  intro h
  obtain ⟨dq, hdq⟩ := h [computeOnlyDevice, graphicsDevice]
    ⟨graphicsDevice, by simp, goodQueueFamily,
     by simp [graphicsDevice], by simp [queue_family_ok, goodQueueFamily]⟩
  simp [select_physical_device_and_queue, queue_family_ok, List.find?,
    computeOnlyDevice, computeOnlyQueueFamily] at hdq

/-- C7 (amended): `VulkanRendererState::new` takes the first enumerated
physical device unconditionally and then searches only that device's queue
families for one that supports graphics and can present; it fails with
"No devices available!" when the enumeration is empty and with
"No graphics queues available!" when the first device has no suitable
family, even if a later device does. Both failures abort setup with `Err`. -/
theorem select_device_first_enumerated (d : PhysicalDevice)
    (rest : List PhysicalDevice) :
    select_physical_device_and_queue [] = Except.error "No devices available!" ∧
    (d.queue_families.find? queue_family_ok = none →
      select_physical_device_and_queue (d :: rest) =
        Except.error "No graphics queues available!") ∧
    (∀ q, d.queue_families.find? queue_family_ok = some q →
      select_physical_device_and_queue (d :: rest) = Except.ok (d, q)) := by
  refine ⟨rfl, fun hfind => ?_, fun q hfind => ?_⟩ <;>
    simp [select_physical_device_and_queue, hfind]

/-- Witness for C7 (amended): a single device whose only queue family
supports graphics and presentation is selected with that family. -/
theorem select_device_first_enumerated_witness :
    select_physical_device_and_queue [graphicsDevice] =
      Except.ok (graphicsDevice, goodQueueFamily) :=
  (select_device_first_enumerated graphicsDevice []).2.2 goodQueueFamily rfl

/-- C8: swapchain creation picks the first color format in the surface's
supported-formats list, chooses Mailbox when supported and otherwise Fifo,
and requests `min_image_count + 1` buffers (a count derived from the
surface's minimum supported image count). -/
theorem build_swapchain_request_spec (capabilities : SurfaceCapabilities)
    (alpha : Nat) (alphaRest : List Nat) (format colorSpace : Nat)
    (formatRest : List (Nat × Nat))
    (ha : capabilities.supported_composite_alpha = alpha :: alphaRest)
    (hf : capabilities.supported_formats = (format, colorSpace) :: formatRest) :
    build_swapchain_request capabilities =
      RustResult.ok
        { num_images := capabilities.min_image_count + 1,
          format := format,
          present_mode :=
            if capabilities.supports_mailbox then PresentMode.Mailbox
            else PresentMode.Fifo,
          alpha := alpha } := by
  simp [build_swapchain_request, ha, hf]

/-- Witness for C8: a surface supporting Mailbox with two formats and
minimum image count 2 yields a request for 3 images of the first format in
Mailbox mode. -/
theorem build_swapchain_request_spec_witness :
    build_swapchain_request
      { supported_composite_alpha := [0, 1],
        supported_formats := [(37, 0), (44, 0)],
        supports_mailbox := true, min_image_count := 2 } =
      RustResult.ok
        { num_images := 3, format := 37,
          present_mode := PresentMode.Mailbox, alpha := 0 } :=
  build_swapchain_request_spec
    { supported_composite_alpha := [0, 1],
      supported_formats := [(37, 0), (44, 0)],
      supports_mailbox := true, min_image_count := 2 }
    0 [1] 37 0 [(44, 0)] rfl rfl

/-! ## The stale-present / recreate-flag trace for C1. -/

/-- A renderer state with a single-image swapchain, matching the engine
state right after `load_scene`. -/
def bugState : VulkanRendererState :=
  { swapchain := sampleSwapchain,
    swapchain_images := [sampleImage0],
    current_swapchain_image := 0,
    dynamic_state := some (640, 480),
    frame_future := some FrameFuture.now }

/-- The engine as configured by `Engine::new` plus `load_scene`: framebuffer
list built against `bugState`'s swapchain, recreate flag clear. -/
def bugEngine : Engine :=
  { quit := false,
    renderer := Renderer.Vulkan bugState,
    render_pass := RenderPass.Vulkan sampleRenderPass,
    frame_buffers := [FrameBuffer.Vulkan sampleVkFramebuffer],
    render_pipeline := RenderPipeline.Vulkan samplePipeline,
    recreate_swapchain := false,
    scene := { vertex_buffer := VertexBuffer.Vulkan sampleVertices } }

/-- The swapchain a successful recreation would install. -/
def bugNewSwapchain : Swapchain := { id := 1, format := 37 }

/-- The image list a successful recreation would install. -/
def bugNewImages : List SwapchainImage := [{ id := 2, width := 800, height := 600 }]

/-- Iteration N's environment: no window events; present/flush reports the
swapchain out of date (`FlushError::OutOfDate`). -/
def staleTickEnv : TickEnv :=
  { events := { close_requested := false, resized := false },
    recreate := { window_dims := Except.ok (640, 480),
                  result := Except.ok (bugNewSwapchain, bugNewImages) },
    draw := { acquire := AcquireResult.ok 0, exec := Except.ok (),
              flush := FlushResult.outOfDate } }

/-- Iteration N+1's environment: again no window events (in particular no
`Resized` event), and a recreation that would succeed if it were attempted. -/
def nextTickEnv : TickEnv :=
  { events := { close_requested := false, resized := false },
    recreate := { window_dims := Except.ok (800, 600),
                  result := Except.ok (bugNewSwapchain, bugNewImages) },
    draw := { acquire := AcquireResult.ok 0, exec := Except.ok (),
              flush := FlushResult.ok } }

/-- The command buffer both iterations record: it begins the render pass on
the framebuffer built against the original swapchain. -/
def bugCommands : List Command :=
  [Command.beginRenderPass sampleVkFramebuffer false [blueClear],
   Command.draw samplePipeline (some (640, 480)) [sampleVertices],
   Command.endRenderPass]

/-- The engine after the stale-present iteration: unchanged except that
`render_scene` has set the recreate flag. -/
def bugEngineAfterStale : Engine := { bugEngine with recreate_swapchain := true }

/-- The engine after the following iteration: `handle_events` has clobbered
the recreate flag, no recreation ran (the swapchain is still the original
`sampleSwapchain` and the framebuffer list the original one), and a frame
was drawn and presented against the old framebuffer. -/
def bugEngineAfterNext : Engine :=
  { bugEngine with
    renderer := Renderer.Vulkan
      (bugState.after_frame 0 (FrameFuture.fence FrameFuture.now 0 bugCommands 0)),
    recreate_swapchain := false }

/-- C1: after `draw_data` returns false (stale present) in one iteration,
the next iteration must recreate the swapchain and rebuild the framebuffers
before drawing again — but in the code `handle_events` unconditionally
overwrites `recreate_swapchain` with this tick's resize-event status, so
with no resize event the next iteration draws against the old framebuffer
list and the old swapchain with no recreation. This trace evaluates the
loop at such an input: iteration N ends stale with the flag set, iteration
N+1 still reaches `draw_data`, submits a command buffer that begins the
render pass on the original framebuffer, and leaves the original swapchain
and framebuffer list in place. -/
theorem stale_present_recreate_flag_clobbered :
    Engine.tick bugEngine staleTickEnv =
      TickOutcome.looped bugEngineAfterStale (some bugCommands) ∧
    bugEngineAfterStale.recreate_swapchain = true ∧
    Engine.tick bugEngineAfterStale nextTickEnv =
      TickOutcome.looped bugEngineAfterNext (some bugCommands) ∧
    bugEngineAfterNext.frame_buffers = bugEngine.frame_buffers ∧
    bugEngineAfterNext.renderer = Renderer.Vulkan
      (bugState.after_frame 0 (FrameFuture.fence FrameFuture.now 0 bugCommands 0)) ∧
    (bugState.after_frame 0
      (FrameFuture.fence FrameFuture.now 0 bugCommands 0)).swapchain =
        bugState.swapchain ∧
    Command.beginRenderPass sampleVkFramebuffer false [blueClear] ∈ bugCommands ∧
    sampleVkFramebuffer.image = sampleImage0 :=
  ⟨rfl, rfl, rfl, rfl, rfl, rfl, by simp [bugCommands], rfl⟩

end EngineRs
